import Mathlib

/-!
# Verification of the `errorid` package (go-support-id-error)

Shallow embedding of the repository's Go sources into Lean 4.

Modelling conventions:
* Go `map[string]interface{}` values live on an explicit heap (`Heap`);
  a map reference is a `Nat`, `none` models a nil map.  This makes
  mutation-versus-copy questions about `logError` real statements.
* Randomness, the clock and the goroutine call stack are oracle inputs
  (`GenWorld`, `World`): the embedding of a function receives the values
  the corresponding runtime sources would have produced.
* Go panics are modelled with `Except String`: `Except.error v` is a
  panic whose recovered value renders as `v`.
* Calls into the pluggable `Logger` and the `OnError` callback are not
  interpreted; they are recorded in an `Effects` structure, mirroring the
  argument lists the Go code passes.  The `Logger` interface (config.go)
  takes four arguments — identifier, original error, context and the
  details map — with no stack-trace parameter; `logError` is embedded
  from the version that type-checks against that interface, which
  inserts `timestamp` and `stack_trace` keys into the caller's own map.
-/

set_option maxHeartbeats 1000000

namespace ErrorId

/-- A value stored in a Go `map[string]interface{}`: strings, integers, or
an opaque caller-supplied value identified by a tag. -/
inductive Val where
  | str (s : String)
  | int (n : Int)
  | other (tag : Nat)
deriving DecidableEq

/-- Contents of one Go map, as an association list without duplicate keys
(the Go runtime guarantees key uniqueness). -/
abbrev AssocMap := List (String × Val)

/-- Go map read `m[k]`. -/
def mapGet : AssocMap → String → Option Val
  | [], _ => none
  | p :: t, k => if p.1 == k then some p.2 else mapGet t k

/-- The keys of a map. -/
def mapKeys (m : AssocMap) : List String := m.map (fun p => p.1)

/-- Whether a key is bound in a map. -/
def mapHasKey : AssocMap → String → Bool
  | [], _ => false
  | p :: t, k => p.1 == k || mapHasKey t k

/-- Go map write `m[k] = v`: overwrite an existing binding, else append. -/
def mapInsert (m : AssocMap) (k : String) (v : Val) : AssocMap :=
  if mapHasKey m k then
    m.map (fun p => if p.1 == k then (k, v) else p)
  else
    m ++ [(k, v)]

/-- The heap of Go maps: `next` is the next fresh reference, `store`
gives the current contents of every reference. -/
structure Heap where
  next : Nat
  store : Nat → AssocMap

/-- `make(map[string]interface{})` followed by populating it with `m`:
returns the fresh reference and the updated heap. -/
def Heap.alloc (h : Heap) (m : AssocMap) : Nat × Heap :=
  (h.next, ⟨h.next + 1, fun r => if r = h.next then m else h.store r⟩)

/-- In-place mutation of the map behind reference `r`. -/
def Heap.update (h : Heap) (r : Nat) (m : AssocMap) : Heap :=
  ⟨h.next, fun n => if n = r then m else h.store n⟩

/-- A Go `error` value.  `ref` models the reference identity of the value
(two variables hold "referentially the same" error exactly when the whole
`GoErr` value is equal), `msg` is what its `Error()` method renders. -/
structure GoErr where
  ref : Nat
  msg : String
deriving DecidableEq

/-- `ErrorWithID` (error_id.go): an error wrapped with a tracking ID.
`Details` is a reference to the caller's map (`none` = nil map). -/
structure ErrorWithID where
  ID : String
  Original : GoErr
  Context : String
  StackTrace : String
  Details : Option Nat
  Timestamp : Int
deriving DecidableEq

/-- `func (e *ErrorWithID) Error() string` (error_id.go):
`"[id] context: original"`, or `"[id] original"` when the context is empty;
`%v` on the original renders its `Error()` text, modelled by `msg`. -/
def ErrorWithID.Error (e : ErrorWithID) : String :=
  if e.Context != "" then
    "[" ++ e.ID ++ "] " ++ e.Context ++ ": " ++ e.Original.msg
  else
    "[" ++ e.ID ++ "] " ++ e.Original.msg

/-- `func (e *ErrorWithID) Unwrap() error` (error_id.go). -/
def ErrorWithID.Unwrap (e : ErrorWithID) : GoErr := e.Original

/-- Oracle inputs consumed by `GenerateErrorID`: the calendar date from
`time.Now().Format("20060102")`, the three bytes `crypto/rand` would fill
(`none` models `rand.Read` returning an error), and `time.Now().UnixNano()`
read by the fallback branch. -/
structure GenWorld where
  year : Nat
  month : Nat
  day : Nat
  crypto : Option (Nat × Nat × Nat)
  unixNano : Nat

/-- Fixed-width zero-padded decimal rendering, as produced by Go's
zero-padded formats (`%06d`, `"2006"`, `"01"`, `"02"`). -/
def padDigits (w n : Nat) : List Char :=
  (List.range w).reverse.map (fun i => Nat.digitChar (n / 10 ^ i % 10))

/-- The `"20060102"` layout: 4-digit year, 2-digit month, 2-digit day. -/
def formatDate (g : GenWorld) : List Char :=
  padDigits 4 g.year ++ padDigits 2 g.month ++ padDigits 2 g.day

/-- `hex.EncodeToString` of one byte: two lowercase hex characters. -/
def hexByte (b : Nat) : List Char :=
  [Nat.digitChar (b / 16), Nat.digitChar (b % 16)]

/-- `func GenerateErrorID() string` (generator.go): `ERR-<date>-<6 hex>`
from 3 random bytes, or `ERR-<date>-%06d` of `UnixNano()%1000000` when the
strong randomness source fails. -/
def GenerateErrorID (g : GenWorld) : String :=
  match g.crypto with
  | some (b0, b1, b2) =>
      ⟨'E' :: 'R' :: 'R' :: '-' :: formatDate g ++
        '-' :: (hexByte b0 ++ hexByte b1 ++ hexByte b2)⟩
  | none =>
      ⟨'E' :: 'R' :: 'R' :: '-' :: formatDate g ++
        '-' :: padDigits 6 (g.unixNano % 1000000)⟩

/-- Decimal digit character. -/
def isDigitCh (c : Char) : Bool := 48 ≤ c.toNat && c.toNat ≤ 57

/-- Lowercase hexadecimal character. -/
def isHexLowerCh (c : Char) : Bool :=
  isDigitCh c || (97 ≤ c.toNat && c.toNat ≤ 102)

/-- Checker for the documented identifier shape
`ERR-` + 8 decimal digits + `-` + 6 lowercase hex characters. -/
def isValidErrorID (s : String) : Bool :=
  let cs := s.data
  cs.length == 19 &&
  cs.take 4 == ['E', 'R', 'R', '-'] &&
  ((cs.drop 4).take 8).all isDigitCh &&
  (cs.drop 12).take 1 == ['-'] &&
  ((cs.drop 13).all isHexLowerCh)

/-- Behaviour of one invocation of the user's `OnError` callback:
it either returns normally or panics with a value rendering as `rendered`. -/
inductive CbBehavior where
  | ok
  | panics (rendered : String)

/-- `Config` (config.go).  The pluggable logger is modelled by its
presence (`Logger = true` iff the field is non-nil); what it receives is
recorded in `Effects`.  A custom `IDGenerator` is an abstract function of
the generator oracle; `none` models a nil field. -/
structure Config where
  OnError : Option (ErrorWithID → CbBehavior)
  AsyncCallback : Bool
  Logger : Bool
  IncludeStackTrace : Bool
  Environment : String
  IDGenerator : Option (GenWorld → String)

/-- `func DefaultConfig() Config` (config.go): default no-op callback,
sync callbacks, the stdout default logger, no stack traces, production. -/
def DefaultConfig : Config :=
  { OnError := some (fun _ => CbBehavior.ok)
    AsyncCallback := false
    Logger := true
    IncludeStackTrace := false
    Environment := "production"
    IDGenerator := none }

/-- `Handler` (handler.go). -/
structure Handler where
  config : Config

/-- `func New(cfg Config) *Handler` (handler.go): substitute the default
ID generator and the default logger for nil fields. -/
def New (cfg : Config) : Handler :=
  ⟨{ cfg with
      IDGenerator :=
        match cfg.IDGenerator with
        | none => some GenerateErrorID
        | some g => some g
      Logger := if cfg.Logger then cfg.Logger else DefaultConfig.Logger }⟩

/-- One line per frame, the shape `runtime.Stack` uses. -/
def renderFrames : List String → String
  | [] => ""
  | f :: t => f ++ "\n" ++ renderFrames t

/-- Model of the text `runtime.Stack(buf, false)` writes: a goroutine
header followed by every frame of the current call stack. -/
def renderStack (frames : List String) : String :=
  "goroutine 1 [running]:\n" ++ renderFrames frames

/-- `func captureStackTrace(skip int) string` (error_id.go): renders the
full current stack.  The `skip` argument is accepted and ignored, exactly
as in the source (the implementation never uses it). -/
def captureStackTrace (_skip : Nat) (frames : List String) : String :=
  renderStack frames

/-- Ambient oracle for one `WrapWithDetails` call: generator inputs,
`time.Now().Unix()`, and the goroutine's call stack (invoking frames
included) at capture time. -/
structure World where
  genWorld : GenWorld
  nowUnix : Int
  frames : List String

/-- The argument list of one `Logger.Error(...)` invocation issued by
`logError`, per the `Logger` interface of config.go: identifier, original
error, context and the details map reference — the interface has no
stack-trace parameter. -/
structure LoggerErrorCall where
  errorID : String
  original : GoErr
  context : String
  detailsRef : Nat
deriving DecidableEq

/-- Observable side effects of one call into the package. -/
structure Effects where
  /-- whether `config.IDGenerator()` was invoked -/
  genInvoked : Bool
  /-- `Logger.Error` invocations, in order -/
  loggerErrorCalls : List LoggerErrorCall
  /-- `Logger.Info` invocations issued synchronously -/
  infos : List String
  /-- synchronous `safeCallback` executions (argument passed) -/
  syncCallbackRuns : List ErrorWithID
  /-- detached `go h.safeCallback(...)` tasks started -/
  spawned : List ErrorWithID
  /-- `Logger.Info` invocations the detached tasks emit when they run -/
  deferredInfos : List String
deriving DecidableEq

/-- The effects of a call that did nothing. -/
def Effects.empty : Effects := ⟨false, [], [], [], [], []⟩

/-- `func (h *Handler) logError(err *ErrorWithID)`: skip when the logger
is nil; otherwise `details := err.Details` aliases the caller's map (a
fresh empty map replaces a nil one), `details["timestamp"]` and — when a
stack was captured — `details["stack_trace"]` are inserted into that very
map, and the 4-argument `Logger.Error` receives the same map.  This is
the version that type-checks against the package's `Logger` interface
(config.go); the copy-and-separate-stack-trace variant staged in
handler.go calls `Logger.Error` with five arguments and cannot compile. -/
def Handler.logError (h : Handler) (e : ErrorWithID) (heap : Heap) :
    Heap × List LoggerErrorCall :=
  if h.config.Logger = false then (heap, [])
  else
    match e.Details with
    | some r =>
        let m1 := mapInsert (heap.store r) "timestamp" (Val.int e.Timestamp)
        let m2 :=
          if e.StackTrace != "" then
            mapInsert m1 "stack_trace" (Val.str e.StackTrace)
          else m1
        (heap.update r m2, [⟨e.ID, e.Original, e.Context, r⟩])
    | none =>
        let m1 := mapInsert ([] : AssocMap) "timestamp" (Val.int e.Timestamp)
        let m2 :=
          if e.StackTrace != "" then
            mapInsert m1 "stack_trace" (Val.str e.StackTrace)
          else m1
        let al := heap.alloc m2
        (al.2, [⟨e.ID, e.Original, e.Context, al.1⟩])

/-- The body of the user callback, before any recovery: a panic is an
`Except.error` carrying the rendered panic value. -/
def runCb (f : ErrorWithID → CbBehavior) (e : ErrorWithID) :
    Except String Unit :=
  match f e with
  | CbBehavior.ok => Except.ok ()
  | CbBehavior.panics v => Except.error v

/-- `func (h *Handler) safeCallback(err *ErrorWithID)` (handler.go): run
the callback under a deferred `recover()`; a panic is demoted to one
`Logger.Info` line (when the logger is non-nil) and swallowed, so the
function itself always returns normally (`Except.ok`). -/
def Handler.safeCallback (h : Handler) (f : ErrorWithID → CbBehavior)
    (e : ErrorWithID) : List String × Except String Unit :=
  match runCb f e with
  | Except.ok _ => ([], Except.ok ())
  | Except.error v =>
      ((if h.config.Logger then ["OnError callback panicked: " ++ v] else []),
        Except.ok ())

/-- `func (h *Handler) WrapWithDetails(err, context, details)`
(handler.go): nil errors short-circuit with no effects; otherwise generate
an ID, build the envelope, capture the stack when enabled, log, then run
the callback synchronously or detached. -/
def Handler.WrapWithDetails (h : Handler) (w : World) (heap : Heap)
    (err : Option GoErr) (context : String) (details : Option Nat) :
    Option ErrorWithID × Effects × Heap :=
  match err with
  | none => (none, Effects.empty, heap)
  | some e =>
    let errorID := (h.config.IDGenerator.getD GenerateErrorID) w.genWorld
    let stackTrace :=
      if h.config.IncludeStackTrace then captureStackTrace 2 w.frames else ""
    let wrapped : ErrorWithID :=
      ⟨errorID, e, context, stackTrace, details, w.nowUnix⟩
    let hl := h.logError wrapped heap
    (some wrapped,
      (match h.config.OnError with
      | none => ⟨true, hl.2, [], [], [], []⟩
      | some f =>
          if h.config.AsyncCallback then
            ⟨true, hl.2, [], [], [wrapped], (h.safeCallback f wrapped).1⟩
          else
            ⟨true, hl.2, (h.safeCallback f wrapped).1, [wrapped], [], []⟩),
      hl.1)

/-- `func (h *Handler) Wrap(err, context)` (handler.go). -/
def Handler.Wrap (h : Handler) (w : World) (heap : Heap)
    (err : Option GoErr) (context : String) :
    Option ErrorWithID × Effects × Heap :=
  h.WrapWithDetails w heap err context none

/-- The package-level mutable state of error_id.go: `defaultHandler`
(directly initialised to `New(DefaultConfig())`) and the `configured`
flag guarded by `configureMu`. -/
structure GlobalState where
  defaultHandler : Handler
  configured : Bool

/-- The state at program start. -/
def initialGlobalState : GlobalState := ⟨New DefaultConfig, false⟩

/-- The panic message of a repeated `Configure` call. -/
def configurePanicMsg : String :=
  "errorid: Configure() called multiple times. Call Configure() only once at program startup."

/-- `func Configure(cfg Config)` (error_id.go): under the mutex, panic if
already configured (state untouched), else install `New(cfg)` and set the
flag.  `Except.error` models the panic escaping to the caller. -/
def Configure (cfg : Config) (s : GlobalState) :
    Except String Unit × GlobalState :=
  if s.configured then (Except.error configurePanicMsg, s)
  else (Except.ok (), ⟨New cfg, true⟩)

/-- `func Default() *Handler` (error_id.go). -/
def Default (s : GlobalState) : Handler := s.defaultHandler

/-- `func Wrap(err, context)` (error_id.go): forwards to the default
handler. -/
def Wrap (s : GlobalState) (w : World) (heap : Heap) (err : Option GoErr)
    (context : String) : Option ErrorWithID × Effects × Heap :=
  s.defaultHandler.Wrap w heap err context

/-- `func WrapWithDetails(err, context, details)` (error_id.go). -/
def WrapWithDetails (s : GlobalState) (w : World) (heap : Heap)
    (err : Option GoErr) (context : String) (details : Option Nat) :
    Option ErrorWithID × Effects × Heap :=
  s.defaultHandler.WrapWithDetails w heap err context details

/-- A recovered panic value: either already an `error` (the type-switch
`case error` in `RecoveryMiddleware`), or an arbitrary value whose
`fmt.Sprint` rendering is `rendered`. -/
inductive PanicVal where
  | errVal (e : GoErr)
  | rawVal (rendered : String)

/-- The conversion in `RecoveryMiddleware`: an `error` is used verbatim;
anything else is wrapped in `panicError`, whose `Error()` is
`"panic: " + fmt.Sprint(value)` (middleware.go). -/
def panicToErr : PanicVal → GoErr
  | PanicVal.errVal e => e
  | PanicVal.rawVal v => ⟨0, "panic: " ++ v⟩

/-- The request fields the middleware reads. -/
structure HTTPRequest where
  method : String
  path : String
  remote : String

/-- What the wrapped `next` handler did with the request: returned
normally, or panicked with some value. -/
inductive HandlerOutcome where
  | normal
  | panicked (v : PanicVal)

/-- `ErrorResponse` (middleware.go): the JSON body written to clients. -/
structure ErrorResponse where
  error_id : String
  message : String
  timestamp : Int
deriving DecidableEq

/-- One HTTP response as written by `writeErrorResponse`: status code,
content type and the JSON-encoded body. -/
structure HTTPResponse where
  status : Nat
  contentType : String
  body : ErrorResponse
deriving DecidableEq

/-- The generic client-facing message (middleware.go). -/
def genericMessage : String :=
  "An internal error occurred. Please contact support with this error ID."

/-- `func (h *Handler) writeErrorResponse(w, err)` (middleware.go):
HTTP 500, JSON content type, body `{error_id, message, timestamp}`; the
message is the generic string unless the environment is `"development"`,
where it becomes `err.Error()`. -/
def Handler.writeErrorResponse (h : Handler) (e : ErrorWithID) :
    HTTPResponse :=
  let message :=
    if h.config.Environment == "development" then e.Error
    else genericMessage
  ⟨500, "application/json", ⟨e.ID, message, e.Timestamp⟩⟩

/-- `func (h *Handler) RecoveryMiddleware(next)` (middleware.go), the
behaviour of one request: a normal return writes nothing here (the inner
handler's own output is out of scope); a panic is recovered, converted to
an error, wrapped with context `"panic recovered in HTTP handler"` and a
fresh `{method, path, remote}` details map, and exactly one error
response is written. -/
def Handler.RecoveryMiddleware (h : Handler) (w : World) (heap : Heap)
    (req : HTTPRequest) (outcome : HandlerOutcome) :
    Option HTTPResponse × Effects × Heap :=
  match outcome with
  | HandlerOutcome.normal => (none, Effects.empty, heap)
  | HandlerOutcome.panicked pv =>
    let e := panicToErr pv
    let al := heap.alloc
      [("method", Val.str req.method), ("path", Val.str req.path),
        ("remote", Val.str req.remote)]
    let res := h.WrapWithDetails w al.2 (some e)
      "panic recovered in HTTP handler" (some al.1)
    ((res.1).map h.writeErrorResponse, res.2.1, res.2.2)

/-- `needle` occurs contiguously inside `hay`. -/
def ContainsSub (needle hay : List Char) : Prop :=
  ∃ pre post, hay = pre ++ needle ++ post

/-! ## Lemmas about the identifier format -/

theorem isDigitCh_digitChar {d : Nat} (h : d < 10) :
    isDigitCh (Nat.digitChar d) = true := by
  interval_cases d <;> decide

theorem isHexLowerCh_digitChar {d : Nat} (h : d < 16) :
    isHexLowerCh (Nat.digitChar d) = true := by
  interval_cases d <;> decide

theorem padDigits_length (w n : Nat) : (padDigits w n).length = w := by
  simp [padDigits]

theorem padDigits_all_digit (w n : Nat) :
    (padDigits w n).all isDigitCh = true := by
  rw [List.all_eq_true]
  intro c hc
  simp only [padDigits, List.mem_map] at hc
  obtain ⟨i, _, rfl⟩ := hc
  exact isDigitCh_digitChar (Nat.mod_lt _ (by norm_num))

theorem padDigits_all_hex (w n : Nat) :
    (padDigits w n).all isHexLowerCh = true := by
  rw [List.all_eq_true]
  intro c hc
  simp only [padDigits, List.mem_map] at hc
  obtain ⟨i, _, rfl⟩ := hc
  exact isHexLowerCh_digitChar (Nat.lt_of_lt_of_le (Nat.mod_lt _ (by norm_num)) (by norm_num))

theorem formatDate_length (g : GenWorld) : (formatDate g).length = 8 := by
  simp [formatDate, padDigits_length]

theorem formatDate_all_digit (g : GenWorld) :
    (formatDate g).all isDigitCh = true := by
  simp [formatDate, List.all_append, padDigits_all_digit]

theorem hexByte_all_hex {b : Nat} (hb : b < 256) :
    (hexByte b).all isHexLowerCh = true := by
  have h1 : b / 16 < 16 := Nat.div_lt_of_lt_mul (by omega)
  have h2 : b % 16 < 16 := Nat.mod_lt _ (by norm_num)
  simp [hexByte, isHexLowerCh_digitChar h1, isHexLowerCh_digitChar h2]

theorem isValidErrorID_mk (ds hs : List Char)
    (hdl : ds.length = 8) (hhl : hs.length = 6)
    (hda : ds.all isDigitCh = true) (hha : hs.all isHexLowerCh = true) :
    isValidErrorID ⟨'E' :: 'R' :: 'R' :: '-' :: ds ++ '-' :: hs⟩ = true := by
  have hassoc : ds ++ '-' :: hs = (ds ++ ['-']) ++ hs := by simp
  unfold isValidErrorID
  simp only [String.data]
  rw [Bool.and_eq_true, Bool.and_eq_true, Bool.and_eq_true, Bool.and_eq_true]
  refine ⟨⟨⟨⟨?_, ?_⟩, ?_⟩, ?_⟩, ?_⟩
  · simp [hdl, hhl]
  · simp
  · have : (('E' :: 'R' :: 'R' :: '-' :: ds ++ '-' :: hs).drop 4).take 8 = ds := by
      have hd4 : ('E' :: 'R' :: 'R' :: '-' :: ds ++ '-' :: hs).drop 4 = ds ++ '-' :: hs := rfl
      rw [hd4, ← hdl, List.take_left]
    rw [this, hda]
  · have hd12 : ('E' :: 'R' :: 'R' :: '-' :: ds ++ '-' :: hs).drop 12 = '-' :: hs := by
      have : ('E' :: 'R' :: 'R' :: '-' :: ds ++ '-' :: hs).drop 12 = (ds ++ '-' :: hs).drop 8 := rfl
      rw [this, ← hdl, List.drop_left]
    rw [hd12]
    simp
  · have hd13 : ('E' :: 'R' :: 'R' :: '-' :: ds ++ '-' :: hs).drop 13 = hs := by
      have h9 : ('E' :: 'R' :: 'R' :: '-' :: ds ++ '-' :: hs).drop 13 = (ds ++ '-' :: hs).drop 9 := rfl
      rw [h9, hassoc]
      have hlen9 : (ds ++ ['-']).length = 9 := by simp [hdl]
      rw [← hlen9, List.drop_left]
    rw [hd13, hha]

theorem generateErrorID_valid (g : GenWorld)
    (hcr : ∀ b0 b1 b2, g.crypto = some (b0, b1, b2) →
      b0 < 256 ∧ b1 < 256 ∧ b2 < 256) :
    isValidErrorID (GenerateErrorID g) = true := by
  cases hc : g.crypto with
  | none =>
    simp only [GenerateErrorID, hc]
    exact isValidErrorID_mk _ _ (formatDate_length g) (by simp [padDigits_length])
      (formatDate_all_digit g) (padDigits_all_hex _ _)
  | some t =>
    obtain ⟨b0, b1, b2⟩ := t
    obtain ⟨h0, h1, h2⟩ := hcr b0 b1 b2 hc
    simp only [GenerateErrorID, hc]
    refine isValidErrorID_mk _ _ (formatDate_length g) (by simp [hexByte]) (formatDate_all_digit g) ?_
    simp [List.all_append, hexByte_all_hex h0, hexByte_all_hex h1, hexByte_all_hex h2]

/-! ## Lemmas about the stack trace model -/

theorem renderFrames_contains {f : String} {l : List String} (h : f ∈ l) :
    ContainsSub f.data (renderFrames l).data := by
  induction l with
  | nil => cases h
  | cons g t ih =>
    rcases List.mem_cons.mp h with rfl | ht
    · refine ⟨[], '\n' :: (renderFrames t).data, ?_⟩
      show (f ++ "\n" ++ renderFrames t).data = _
      simp [String.data_append]
    · rcases ih ht with ⟨pre, post, hp⟩
      refine ⟨g.data ++ '\n' :: pre, post, ?_⟩
      show (g ++ "\n" ++ renderFrames t).data = _
      simp [String.data_append, hp]

theorem renderStack_contains {f : String} {l : List String} (h : f ∈ l) :
    ContainsSub f.data (renderStack l).data := by
  rcases renderFrames_contains h with ⟨pre, post, hp⟩
  refine ⟨"goroutine 1 [running]:\n".data ++ pre, post, ?_⟩
  show ("goroutine 1 [running]:\n" ++ renderFrames l).data = _
  simp [String.data_append, hp]

theorem renderStack_ne_empty (l : List String) : renderStack l ≠ "" := by
  intro hem
  have h2 : (renderStack l).data = [] := by rw [hem]
  rw [show (renderStack l).data = ("goroutine 1 [running]:\n").data ++ (renderFrames l).data from
    String.data_append _ _] at h2
  simp at h2

/-! ## Lemmas about `New` -/

theorem New_config_Logger (cfg : Config) : (New cfg).config.Logger = true := by
  cases h : cfg.Logger <;> simp [New, h, DefaultConfig]

theorem New_config_OnError (cfg : Config) :
    (New cfg).config.OnError = cfg.OnError := rfl

theorem New_config_Environment (cfg : Config) :
    (New cfg).config.Environment = cfg.Environment := rfl

theorem New_config_IncludeStackTrace (cfg : Config) :
    (New cfg).config.IncludeStackTrace = cfg.IncludeStackTrace := rfl

theorem New_config_IDGenerator_none {cfg : Config}
    (h : cfg.IDGenerator = none) :
    (New cfg).config.IDGenerator = some GenerateErrorID := by
  simp [New, h]

theorem New_config_IDGenerator_some {cfg : Config} {f : GenWorld → String}
    (h : cfg.IDGenerator = some f) :
    (New cfg).config.IDGenerator = some f := by
  simp [New, h]

/-- The envelope `WrapWithDetails` constructs for a non-nil error. -/
def wrappedOf (h : Handler) (w : World) (e : GoErr) (context : String)
    (d : Option Nat) : ErrorWithID :=
  ⟨(h.config.IDGenerator.getD GenerateErrorID) w.genWorld, e, context,
    (if h.config.IncludeStackTrace then captureStackTrace 2 w.frames else ""),
    d, w.nowUnix⟩

/-! ## Claim theorems -/

/-- C2: wrapping a nil original failure returns nil and performs no side
effects: the identifier generator is not invoked, no log entry is emitted,
no callback runs, no task is spawned, and the heap is untouched. -/
theorem wrap_nil_noop (h : Handler) (w : World) (heap : Heap)
    (context : String) (d : Option Nat) :
    h.Wrap w heap none context = (none, Effects.empty, heap) ∧
    h.WrapWithDetails w heap none context d = (none, Effects.empty, heap) ∧
    Effects.empty.genInvoked = false ∧
    Effects.empty.loggerErrorCalls = [] ∧
    Effects.empty.infos = [] ∧
    Effects.empty.syncCallbackRuns = [] ∧
    Effects.empty.spawned = [] :=
  ⟨rfl, rfl, rfl, rfl, rfl, rfl, rfl⟩

/-- C7: `Error()` renders `"[id] context: original"` for a non-empty
context and `"[id] original"` for an empty one, and as a pure function it
yields the same string on repeated calls. -/
theorem errorWithID_error_format (e : ErrorWithID) :
    (e.Context ≠ "" →
      e.Error = "[" ++ e.ID ++ "] " ++ e.Context ++ ": " ++ e.Original.msg) ∧
    (e.Context = "" → e.Error = "[" ++ e.ID ++ "] " ++ e.Original.msg) ∧
    e.Error = e.Error := by
  refine ⟨?_, ?_, rfl⟩
  · intro h
    simp [ErrorWithID.Error, h]
  · intro h
    simp [ErrorWithID.Error, h]

/-- Witness for C7 at a concrete envelope. -/
theorem errorWithID_error_format_witness :
    (⟨"ERR-20251011-abc123", ⟨7, "boom"⟩, "db query", "", none, 5⟩ :
      ErrorWithID).Error =
      "[" ++ "ERR-20251011-abc123" ++ "] " ++ "db query" ++ ": " ++ "boom" :=
  (errorWithID_error_format _).1 (by decide)

/-- C8: unwrapping the envelope returned by `Wrap` yields the same error
value that was passed in (`Original` stores it by reference, `Unwrap`
returns that reference). -/
theorem wrap_unwrap_roundtrip (h : Handler) (w : World) (heap : Heap)
    (e : GoErr) (context : String) :
    ∃ env, (h.Wrap w heap (some e) context).1 = some env ∧
      env.Unwrap = e ∧ env.Original = e :=
  ⟨wrappedOf h w e context none, rfl, rfl, rfl⟩

/-- C3: under the default generator the envelope's identifier always has
the shape `ERR-\d{8}-[0-9a-f]{6}`, also when the strong randomness source
fails (the time-derived fallback keeps the 3-segment dash layout); with a
custom generator the identifier is that generator's output verbatim.  The
date bounds are the ranges the clock actually produces. -/
theorem wrap_id_format (cfg : Config) (w : World) (heap : Heap) (e : GoErr)
    (context : String) (d : Option Nat)
    (_hy : w.genWorld.year < 10000) (_hm : w.genWorld.month ≤ 12)
    (_hd : w.genWorld.day ≤ 31)
    (hcr : ∀ b0 b1 b2, w.genWorld.crypto = some (b0, b1, b2) →
      b0 < 256 ∧ b1 < 256 ∧ b2 < 256) :
    (cfg.IDGenerator = none →
      ∃ env, ((New cfg).WrapWithDetails w heap (some e) context d).1 = some env ∧
        isValidErrorID env.ID = true) ∧
    (∀ f, cfg.IDGenerator = some f →
      ∃ env, ((New cfg).WrapWithDetails w heap (some e) context d).1 = some env ∧
        env.ID = f w.genWorld) := by
  constructor
  · intro hgen
    refine ⟨wrappedOf (New cfg) w e context d, rfl, ?_⟩
    show isValidErrorID
      (((New cfg).config.IDGenerator.getD GenerateErrorID) w.genWorld) = true
    rw [New_config_IDGenerator_none hgen]
    exact generateErrorID_valid w.genWorld hcr
  · intro f hgen
    refine ⟨wrappedOf (New cfg) w e context d, rfl, ?_⟩
    show ((New cfg).config.IDGenerator.getD GenerateErrorID) w.genWorld = f w.genWorld
    rw [New_config_IDGenerator_some hgen]
    rfl

/-- Witness for C3: a concrete date, concrete random bytes (and checking
the fallback through the hypothesis on the crypto source). -/
theorem wrap_id_format_witness :
    (∃ env, ((New DefaultConfig).WrapWithDetails
        ⟨⟨2025, 10, 11, some (0, 255, 171), 123456789⟩, 99, []⟩
        ⟨0, fun _ => []⟩ (some ⟨1, "boom"⟩) "ctx" none).1 = some env ∧
      isValidErrorID env.ID = true) := by
  have h := wrap_id_format DefaultConfig
    ⟨⟨2025, 10, 11, some (0, 255, 171), 123456789⟩, 99, []⟩
    ⟨0, fun _ => []⟩ ⟨1, "boom"⟩ "ctx" none
    (by norm_num) (by norm_num) (by norm_num)
    (by intro b0 b1 b2 hb; simp at hb; omega)
  exact h.1 rfl

/-- C4: the first call to the global `Configure` succeeds and installs the
given configuration as the process-wide handler; every subsequent call
panics (`Except.error`, the model of the source's `panic(...)`) and is
never silently ignored. -/
theorem configure_first_succeeds_then_panics (cfg cfg2 : Config) :
    (Configure cfg initialGlobalState).1 = Except.ok () ∧
    (Configure cfg initialGlobalState).2.defaultHandler = New cfg ∧
    (Configure cfg initialGlobalState).2.configured = true ∧
    (∀ s : GlobalState, s.configured = true →
      (Configure cfg2 s).1 = Except.error configurePanicMsg) ∧
    (Configure cfg2 (Configure cfg initialGlobalState).2).1 =
      Except.error configurePanicMsg := by
  refine ⟨rfl, rfl, rfl, ?_, rfl⟩
  intro s hs
  simp [Configure, hs]

/-- Witness for C4: configure twice from the initial state. -/
theorem configure_first_succeeds_then_panics_witness :
    (Configure DefaultConfig initialGlobalState).1 = Except.ok () ∧
    (Configure DefaultConfig (Configure DefaultConfig initialGlobalState).2).1 =
      Except.error configurePanicMsg := by
  have h := configure_first_succeeds_then_panics DefaultConfig DefaultConfig
  exact ⟨h.1, h.2.2.2.1 _ h.2.2.1⟩

/-- C10: a `Configure` call on an already-configured state panics before
assigning anything: the global state is unchanged, so `Default`, `Wrap`
and `WrapWithDetails` keep using the previously installed handler. -/
theorem configure_second_preserves_state (cfg2 : Config) (s : GlobalState)
    (hs : s.configured = true) :
    (Configure cfg2 s).1 = Except.error configurePanicMsg ∧
    (Configure cfg2 s).2 = s ∧
    Default (Configure cfg2 s).2 = Default s ∧
    (∀ w heap err context d,
      WrapWithDetails (Configure cfg2 s).2 w heap err context d =
        WrapWithDetails s w heap err context d) ∧
    (∀ w heap err context,
      Wrap (Configure cfg2 s).2 w heap err context =
        Wrap s w heap err context) := by
  have h2 : (Configure cfg2 s).2 = s := by simp [Configure, hs]
  refine ⟨by simp [Configure, hs], h2, by rw [h2], ?_, ?_⟩ <;>
    intros <;> rw [h2]

/-- Witness for C10: the state reached by one successful `Configure`. -/
theorem configure_second_preserves_state_witness :
    (Configure DefaultConfig (Configure DefaultConfig initialGlobalState).2).1 =
      Except.error configurePanicMsg ∧
    (Configure DefaultConfig (Configure DefaultConfig initialGlobalState).2).2 =
      (Configure DefaultConfig initialGlobalState).2 := by
  have h := configure_second_preserves_state DefaultConfig
    (Configure DefaultConfig initialGlobalState).2 rfl
  exact ⟨h.1, h.2.1⟩

/-- C9: with `IncludeStackTrace = false` the envelope's stack field is the
empty-string sentinel; with `true` it is non-empty and contains every
frame of the capturing goroutine's stack — in particular the invoking
function's identifying frame. -/
theorem wrap_stack_toggle (h : Handler) (w : World) (heap : Heap)
    (e : GoErr) (context : String) (d : Option Nat) :
    (h.config.IncludeStackTrace = false →
      ∃ env, (h.WrapWithDetails w heap (some e) context d).1 = some env ∧
        env.StackTrace = "") ∧
    (h.config.IncludeStackTrace = true →
      ∃ env, (h.WrapWithDetails w heap (some e) context d).1 = some env ∧
        env.StackTrace ≠ "" ∧
        ∀ f ∈ w.frames, ContainsSub f.data env.StackTrace.data) := by
  constructor
  · intro hst
    refine ⟨wrappedOf h w e context d, rfl, ?_⟩
    simp [wrappedOf, hst]
  · intro hst
    refine ⟨wrappedOf h w e context d, rfl, ?_, ?_⟩
    · show (if h.config.IncludeStackTrace then captureStackTrace 2 w.frames else "") ≠ ""
      rw [hst, if_pos rfl]
      exact renderStack_ne_empty w.frames
    · intro f hf
      show ContainsSub f.data
        (if h.config.IncludeStackTrace then captureStackTrace 2 w.frames else "").data
      rw [hst, if_pos rfl]
      exact renderStack_contains hf

/-- Witness for C9: stack capture enabled, one frame on the stack. -/
theorem wrap_stack_toggle_witness :
    ∃ env, ((New { DefaultConfig with IncludeStackTrace := true }).WrapWithDetails
        ⟨⟨2025, 10, 11, none, 0⟩, 0, ["main.doWork(0x0)"]⟩ ⟨0, fun _ => []⟩
        (some ⟨1, "boom"⟩) "ctx" none).1 = some env ∧
      env.StackTrace ≠ "" ∧
      ∀ f ∈ ["main.doWork(0x0)"], ContainsSub f.data env.StackTrace.data :=
  (wrap_stack_toggle _ _ _ _ _ _).2 rfl

/-- A configuration whose callback always panics (used as witness input). -/
def panicCfg : Config :=
  { DefaultConfig with OnError := some (fun _ => CbBehavior.panics "cb boom") }

/-- C6: a panicking `OnError` callback is recovered inside the handler:
`safeCallback` returns normally (no panic reaches the wrap caller), wrap
still returns the envelope, and the failure is demoted to one `Logger.Info`
line — emitted synchronously for sync callbacks and from the detached task
for async ones. -/
theorem callback_panic_isolated (cfg : Config) (w : World) (heap : Heap)
    (e : GoErr) (context : String) (d : Option Nat)
    (f : ErrorWithID → CbBehavior) (hf : cfg.OnError = some f) :
    ∃ env, ((New cfg).WrapWithDetails w heap (some e) context d).1 = some env ∧
      ((New cfg).safeCallback f env).2 = Except.ok () ∧
      (∀ v, f env = CbBehavior.panics v →
        ("OnError callback panicked: " ++ v) ∈
          ((New cfg).WrapWithDetails w heap (some e) context d).2.1.infos ++
          ((New cfg).WrapWithDetails w heap (some e) context d).2.1.deferredInfos) := by
  have hLog := New_config_Logger cfg
  refine ⟨wrappedOf (New cfg) w e context d, rfl, ?_, ?_⟩
  · unfold Handler.safeCallback runCb
    cases f (wrappedOf (New cfg) w e context d) <;> simp
  · intro v hv
    have hsc : ((New cfg).safeCallback f (wrappedOf (New cfg) w e context d)).1 =
        ["OnError callback panicked: " ++ v] := by
      unfold Handler.safeCallback runCb
      rw [hv]
      simp [hLog]
    have hOn : (New cfg).config.OnError = some f := by
      rw [New_config_OnError, hf]
    unfold Handler.WrapWithDetails
    rw [hOn]
    cases hb : (New cfg).config.AsyncCallback
    · exact (by rw [hsc]; simp :
        ("OnError callback panicked: " ++ v) ∈
          ((New cfg).safeCallback f (wrappedOf (New cfg) w e context d)).1 ++
            ([] : List String))
    · exact (by rw [hsc]; simp :
        ("OnError callback panicked: " ++ v) ∈
          ([] : List String) ++
            ((New cfg).safeCallback f (wrappedOf (New cfg) w e context d)).1)

/-- Witness for C6: a concrete callback that always panics. -/
theorem callback_panic_isolated_witness :
    ("OnError callback panicked: " ++ "cb boom") ∈
      ((New panicCfg).WrapWithDetails ⟨⟨2025, 10, 11, none, 0⟩, 0, []⟩
        ⟨0, fun _ => []⟩ (some ⟨1, "b"⟩) "ctx" none).2.1.infos ++
      ((New panicCfg).WrapWithDetails ⟨⟨2025, 10, 11, none, 0⟩, 0, []⟩
        ⟨0, fun _ => []⟩ (some ⟨1, "b"⟩) "ctx" none).2.1.deferredInfos := by
  obtain ⟨env, _, _, hmem⟩ := callback_panic_isolated panicCfg
    ⟨⟨2025, 10, 11, none, 0⟩, 0, []⟩ ⟨0, fun _ => []⟩ ⟨1, "b"⟩ "ctx" none
    (fun _ => CbBehavior.panics "cb boom") rfl
  exact hmem "cb boom" rfl

/-- A concrete heap holding one caller map at reference 0. -/
def sampleHeap : Heap := ⟨1, fun n => if n = 0 then [("user", Val.str "u")] else []⟩

/-- A concrete oracle world. -/
def sampleWorld : World := ⟨⟨2025, 10, 11, none, 0⟩, 42, []⟩

/-- C1 (code bug): evaluating the compiling `logError` at a concrete
input refutes the claimed isolation.  Before the call the caller's map at
reference 0 holds only a `"user"` entry; after `WrapWithDetails` (stack
capture on) that same heap cell has gained `"timestamp"` and
`"stack_trace"` entries — the call mutated the caller's map — and the one
`Logger.Error` invocation received reference 0 itself, not a copy, with
no separate stack-trace argument (the `Logger` interface has none).  The
spec's copy-and-separate-parameter contract matches STRUCTURE.md and the
non-compiling handler.go variant, so the claim is right and the code is
the slip. -/
theorem logError_mutates_caller_map :
    mapGet (sampleHeap.store 0) "timestamp" = none ∧
    mapGet (sampleHeap.store 0) "stack_trace" = none ∧
    (((New { DefaultConfig with IncludeStackTrace := true }).WrapWithDetails
        ⟨⟨2025, 10, 11, none, 0⟩, 42, ["main.main()"]⟩ sampleHeap
        (some ⟨1, "b"⟩) "ctx" (some 0)).2.1.loggerErrorCalls.map
      (fun c => c.detailsRef)) = [0] ∧
    mapGet (((New { DefaultConfig with IncludeStackTrace := true }).WrapWithDetails
        ⟨⟨2025, 10, 11, none, 0⟩, 42, ["main.main()"]⟩ sampleHeap
        (some ⟨1, "b"⟩) "ctx" (some 0)).2.2.store 0) "timestamp" =
      some (Val.int 42) ∧
    mapGet (((New { DefaultConfig with IncludeStackTrace := true }).WrapWithDetails
        ⟨⟨2025, 10, 11, none, 0⟩, 42, ["main.main()"]⟩ sampleHeap
        (some ⟨1, "b"⟩) "ctx" (some 0)).2.2.store 0) "stack_trace" =
      some (Val.str (renderStack ["main.main()"])) ∧
    mapGet (((New { DefaultConfig with IncludeStackTrace := true }).WrapWithDetails
        ⟨⟨2025, 10, 11, none, 0⟩, 42, ["main.main()"]⟩ sampleHeap
        (some ⟨1, "b"⟩) "ctx" (some 0)).2.2.store 0) "user" =
      some (Val.str "u") := by
  refine ⟨rfl, rfl, rfl, ?_, ?_, rfl⟩ <;> decide

/-- C5: when the wrapped handler panics, the recovery middleware writes
exactly one response: HTTP 500, JSON content type, a body carrying the
envelope's identifier and timestamp; the message is the fixed generic
contact-support string in every environment except `"development"`, where
it is the envelope's full rendered description, original failure text
included. -/
theorem recovery_middleware_response (cfg : Config) (w : World) (heap : Heap)
    (req : HTTPRequest) (pv : PanicVal) :
    ∃ resp,
      ((New cfg).RecoveryMiddleware w heap req (HandlerOutcome.panicked pv)).1 =
        some resp ∧
      resp.status = 500 ∧
      resp.contentType = "application/json" ∧
      resp.body.timestamp = w.nowUnix ∧
      (cfg.Environment ≠ "development" → resp.body.message = genericMessage) ∧
      (cfg.Environment = "development" →
        resp.body.message =
          "[" ++ resp.body.error_id ++ "] " ++ "panic recovered in HTTP handler" ++
            ": " ++ (panicToErr pv).msg) := by
  refine ⟨(New cfg).writeErrorResponse
    (wrappedOf (New cfg) w (panicToErr pv) "panic recovered in HTTP handler"
      (some heap.next)), rfl, ?_, ?_, ?_, ?_, ?_⟩
  · rfl
  · rfl
  · rfl
  · intro henv
    show (if ((New cfg).config.Environment == "development") = true
        then (wrappedOf (New cfg) w (panicToErr pv)
          "panic recovered in HTTP handler" (some heap.next)).Error
        else genericMessage) = genericMessage
    rw [New_config_Environment]
    rw [if_neg (by simpa using henv)]
  · intro henv
    show (if ((New cfg).config.Environment == "development") = true
        then (wrappedOf (New cfg) w (panicToErr pv)
          "panic recovered in HTTP handler" (some heap.next)).Error
        else genericMessage) =
      "[" ++ (wrappedOf (New cfg) w (panicToErr pv)
        "panic recovered in HTTP handler" (some heap.next)).ID ++ "] " ++
        "panic recovered in HTTP handler" ++ ": " ++ (panicToErr pv).msg
    rw [New_config_Environment, henv]
    rw [if_pos (beq_self_eq_true _)]
    simp only [ErrorWithID.Error]
    rw [if_pos (show ((wrappedOf (New cfg) w (panicToErr pv)
      "panic recovered in HTTP handler" (some heap.next)).Context != "") = true from rfl)]
    rfl

/-- Witness for C5: a raw panic value under the development environment. -/
theorem recovery_middleware_response_witness :
    ∃ resp,
      ((New { DefaultConfig with Environment := "development" }).RecoveryMiddleware
        sampleWorld ⟨0, fun _ => []⟩ ⟨"GET", "/api", "1.2.3.4"⟩
        (HandlerOutcome.panicked (PanicVal.rawVal "index out of range"))).1 =
        some resp ∧
      resp.status = 500 ∧
      resp.contentType = "application/json" ∧
      resp.body.message =
        "[" ++ resp.body.error_id ++ "] " ++ "panic recovered in HTTP handler" ++
          ": " ++ (panicToErr (PanicVal.rawVal "index out of range")).msg := by
  obtain ⟨resp, h1, h2, h3, _, _, h6⟩ := recovery_middleware_response
    { DefaultConfig with Environment := "development" } sampleWorld
    ⟨0, fun _ => []⟩ ⟨"GET", "/api", "1.2.3.4"⟩
    (PanicVal.rawVal "index out of range")
  exact ⟨resp, h1, h2, h3, h6 rfl⟩

end ErrorId
